import Mathlib

/-!
# Verification of `phobos.utils.blender`

Shallow embedding of the utility module `src/phobos/utils/blender.py` of the
phobos repository, a thin wrapper around Blender's scripting API, together
with theorems settling the specification claims about it.

The Blender host state the module touches (scene visibility layers, text
buffers, objects with hide flags, render settings) is modelled by explicit
Lean structures; each Python function becomes a Lean function from host state
and arguments to the updated state and result.  Python values that may be
`None` become `Option`; Python truthiness of an optional boolean holds
exactly for `some true`; operations that can raise `IndexError` return
`Except String`.
-/

namespace PhobosBlender

/-- Python truthiness of an optional boolean (`if value:` in the source):
`None` and `False` are falsy, only `True` is truthy. -/
def pyTruthy : Option Bool → Bool
  | some true => true
  | _ => false

/-- `toggleLayer(index, value)`: `bpy.context.scene.layers` is modelled as
`layers`, Blender's fixed array of 20 booleans.  When `value` is truthy the
bit at `index` is assigned `value`, otherwise (`value` is `None` or `False`)
the bit is assigned the negation of its current value. -/
def toggleLayer (layers : List Bool) (index : Nat) (value : Option Bool) : List Bool :=
  if pyTruthy value then
    layers.set index (value.getD true)
  else
    layers.set index (!(layers.getD index false))

/-- The assignment `l[i] = v` with Python list-index semantics: a negative
index counts from the end of the list, an index out of range raises
`IndexError`. -/
def pySetIdx (l : List Bool) (i : Int) (v : Bool) : Except String (List Bool) :=
  if 0 ≤ i ∧ i < (l.length : Int) then
    .ok (l.set i.toNat v)
  else if -(l.length : Int) ≤ i ∧ i < 0 then
    .ok (l.set ((l.length : Int) + i).toNat v)
  else
    .error "IndexError"

/-- The argument of `defLayers`: a single integer or a list of integers. -/
inductive LayerArg where
  | single (i : Int)
  | list (l : List Int)
deriving Repr, DecidableEq

/-- `if type(layerlist) is not list: layerlist = [layerlist]`. -/
def LayerArg.toList : LayerArg → List Int
  | .single i => [i]
  | .list l => l

/-- The loop `for layer in layerlist: layers[layer] = True` of `defLayers`,
with an out-of-range index raising `IndexError` and aborting the loop. -/
def defLayersLoop : List Int → List Bool → Except String (List Bool)
  | [], layers => .ok layers
  | layer :: rest, layers =>
    match pySetIdx layers layer true with
    | .ok layers' => defLayersLoop rest layers'
    | .error msg => .error msg

/-- `defLayers(layerlist)`: wraps a non-list argument into a one-element
list, starts from `20 * [False]` and sets the listed positions to `True`. -/
def defLayers (layerlist : LayerArg) : Except String (List Bool) :=
  defLayersLoop layerlist.toList (List.replicate 20 false)

/-! ## Text buffers (`updateTextFile`, `readTextFile`, `createNewTextfile`) -/

/-- A Blender text buffer (`bpy.types.Text`): a name and the list of its
line bodies (`l.body` carries no trailing newline). -/
structure BText where
  name : String
  lines : List String
deriving Repr, DecidableEq

/-- The lookup `bpy.data.texts[name]`: the buffer of the given name, `none`
when a `KeyError` would be raised.  Blender keeps buffer names unique, so the
first match is the only one. -/
def textsFind (texts : List BText) (name : String) : Option BText :=
  texts.find? (fun t => t.name == name)

/-- Blender `Text.write(contents)` on a freshly created empty buffer stores
the string split at newline characters, one list entry per line. -/
def splitLines (contents : String) : List String :=
  (contents.data.splitOn '\n').map String.mk

/-- `"\n".join(bodies)`: the line bodies joined with newline characters. -/
def joinLines : List String → String
  | [] => ""
  | [l] => l
  | l :: ls => l ++ "\n" ++ joinLines ls

/-- One message logged at level ERROR by `log(...)` in the source. -/
def noTextFileMsg (textfilename : String) : String :=
  "No text file " ++ textfilename ++ " found. Setting"

/-- `readTextFile(textfilename)`: returns the (unchanged) buffer collection,
the result string, and the list of messages logged at level ERROR.  An
existing buffer yields its lines joined with newlines; a `KeyError` is
answered with a logged error and the empty string. -/
def readTextFile (texts : List BText) (textfilename : String) :
    List BText × String × List String :=
  match textsFind texts textfilename with
  | some t => (texts, joinLines t.lines, [])
  | none => (texts, "", [noTextFileMsg textfilename])

/-- `createNewTextfile(textfilename, contents)`: `bpy.ops.text.new()` creates
a fresh empty buffer (found via the tag dance), it is renamed to
`textfilename` and `contents` is written into it.  Modelled for the case
that no buffer named `textfilename` exists beforehand — guaranteed inside
`updateTextFile`, which removes any such buffer first, since Blender keeps
buffer names unique (otherwise Blender would silently rename the new buffer
and the final `bpy.data.texts[textfilename].write` would hit the old one). -/
def createNewTextfile (texts : List BText) (textfilename contents : String) :
    List BText :=
  texts ++ [{ name := textfilename, lines := splitLines contents }]

/-- `updateTextFile(textfilename, newContent)`: remove the buffer of this
name if one exists (`bpy.data.texts.remove`, a `KeyError` is ignored), then
create it anew with the new content. -/
def updateTextFile (texts : List BText) (textfilename newContent : String) :
    List BText :=
  createNewTextfile (texts.eraseP (fun t => t.name == textfilename))
    textfilename newContent

/-! ## Configuration path (`getPhobosConfigPath`) -/

/-- `getPhobosConfigPath()`: `configfolder` stands for the preference
`bpy.context.user_preferences.addons["phobos"].preferences.configfolder`;
`defaultPath` stands for the value of `getConfigPath()` imported from
`phobos.phobossystem` (outside this module), treated as an opaque input. -/
def getPhobosConfigPath (configfolder : String) (defaultPath : String) : String :=
  if configfolder ≠ "" then configfolder else defaultPath

/-! ## Object properties (`cleanObjectProperties`) -/

/-- The predefined list of keys `cleanObjectProperties` strips. -/
def getridof : List String :=
  ["phobostype", "_RNA_UI", "cycles_visibility", "startChain", "endChain",
   "masschanged"]

/-- `cleanObjectProperties(props)`: the dictionary is modelled as an
association list with distinct keys, `None` as `none`.  A falsy `props`
(`None` or the empty dict) skips the deletion loop; otherwise each key of
`getridof` that is present is deleted. -/
def cleanObjectProperties {V : Type} :
    Option (List (String × V)) → Option (List (String × V))
  | none => none
  | some l =>
    if l.isEmpty then some l
    else some (getridof.foldl
      (fun acc key =>
        if acc.any (fun kv => kv.1 == key) then
          acc.eraseP (fun kv => kv.1 == key)
        else acc) l)

/-! ## Primitive creation (`createPrimitive`)

`Size` is the type of `psize` (a float or a tuple of floats, depending on
the primitive type) and `Vec3` the type of the location/rotation triples;
both are carried opaquely, the module does no arithmetic on them. -/

/-- The five primitive types `createPrimitive` handles. -/
inductive PrimType where
  | box
  | sphere
  | cylinder
  | cone
  | disc
deriving Repr, DecidableEq

/-- A mesh object as far as `createPrimitive` touches it. -/
structure PrimObj (Size Vec3 : Type) where
  ptype : PrimType
  size : Size
  layers : List Bool
  location : Vec3
  rotation : Vec3
  name : String
  phobostype : Option String
  material : Option String

/-- The scene state `createPrimitive` touches: the 20 scene visibility
layers and the object collection (a fresh object is appended and becomes
`bpy.context.object`). -/
structure PrimScene (Size Vec3 : Type) where
  layers : List Bool
  objects : List (PrimObj Size Vec3)

/-- The `bpy.ops.mesh.primitive_*_add` branch of `createPrimitive`: each of
the five branches creates one mesh object on the layers `players` at the
given location/rotation, sized by `psize` (for a box the size is applied
afterwards via `obj.dimensions = psize`; the subsequent
`transform_apply(scale=True)` bakes the scaling and leaves the recorded size
unchanged). -/
def addPrimitiveMesh {Size Vec3 : Type} (ptype : PrimType) (psize : Size)
    (players : List Bool) (plocation protation : Vec3) : PrimObj Size Vec3 :=
  match ptype with
  | .box =>
    { ptype := .box, size := psize, layers := players, location := plocation,
      rotation := protation, name := "", phobostype := none, material := none }
  | .sphere =>
    { ptype := .sphere, size := psize, layers := players, location := plocation,
      rotation := protation, name := "", phobostype := none, material := none }
  | .cylinder =>
    { ptype := .cylinder, size := psize, layers := players, location := plocation,
      rotation := protation, name := "", phobostype := none, material := none }
  | .cone =>
    { ptype := .cone, size := psize, layers := players, location := plocation,
      rotation := protation, name := "", phobostype := none, material := none }
  | .disc =>
    { ptype := .disc, size := psize, layers := players, location := plocation,
      rotation := protation, name := "", phobostype := none, material := none }

/-- Modelled from the spec: `phobos.utils.naming.safelyName` is imported
from outside this module and is not under `src/`; per the spec the created
primitive is assigned "the requested name", so the model stores `pname` as
the object's name. -/
def safelyName {Size Vec3 : Type} (obj : PrimObj Size Vec3) (pname : String)
    (_phobostype : Option String) : PrimObj Size Vec3 :=
  { obj with name := pname }

/-- Modelled from the spec: `phobos.model.materials.assignMaterial` is
imported from outside this module and is not under `src/`; per the spec the
requested material is assigned, so the model records it on the object. -/
def assignMaterial {Size Vec3 : Type} (obj : PrimObj Size Vec3) (m : String) :
    PrimObj Size Vec3 :=
  { obj with material := some m }

/-- `createPrimitive(pname, ptype, psize, player, pmaterial, plocation,
protation, phobostype)` for an integer `player` (a string `player` is looked
up in `defs.layerTypes` instead): computes `players = defLayers([n_layer])`,
activates scene layer `n_layer`, adds the primitive mesh, sets the
phobostype when given, names the object, assigns the material when given,
and returns the new object. -/
def createPrimitive {Size Vec3 : Type} (s : PrimScene Size Vec3)
    (pname : String) (ptype : PrimType) (psize : Size) (player : Nat)
    (pmaterial : Option String) (plocation protation : Vec3)
    (phobostype : Option String) :
    Except String (PrimScene Size Vec3 × PrimObj Size Vec3) :=
  match defLayers (.list [(player : Int)]) with
  | .error msg => .error msg
  | .ok players =>
    match pySetIdx s.layers (player : Int) true with
    | .error msg => .error msg
    | .ok slayers =>
      let obj0 := addPrimitiveMesh ptype psize players plocation protation
      let obj1 :=
        match phobostype with
        | some pt => { obj0 with phobostype := some pt }
        | none => obj0
      let obj2 := safelyName obj1 pname phobostype
      let obj3 :=
        match pmaterial with
        | some m => assignMaterial obj2 m
        | none => obj2
      .ok ({ layers := slayers, objects := s.objects ++ [obj3] }, obj3)

/-! ## Thumbnail rendering (`createPreview`) -/

/-- An object as `createPreview` touches it: identified by its (unique)
name, with its two visibility flags. -/
structure RObj where
  name : String
  hide : Bool
  hide_render : Bool
deriving Repr, DecidableEq

/-- The record of one image written to disk by `save_render`: the file path
and the render settings in effect at that moment. -/
structure SavedImage where
  path : String
  file_format : String
  resolution_x : Nat
  resolution_y : Nat
deriving Repr, DecidableEq

/-- The host state `createPreview` touches: the scene render settings, the
object collection `bpy.data.objects`, and the images saved to disk so far. -/
structure RenderScene where
  file_format : String
  resolution_x : Nat
  resolution_y : Nat
  resolution_percentage : Nat
  objects : List RObj
  savedImages : List SavedImage
deriving Repr, DecidableEq

/-- `os.path.join(p, f)`, modelled for POSIX with a relative second
argument: a separator is inserted unless `p` is empty or already ends with
one. -/
def osPathJoin (p f : String) : String :=
  if p = "" ∨ p.endsWith "/" then p ++ f else p ++ "/" ++ f

/-- `createPreview(objects, export_path, modelname, render_resolution,
opengl)`: sets the render presets (PNG, square resolution, 100 percent),
hides every object not in `objects`, renders (the non-opengl branch creates
a camera and a sun lamp and deletes both again before saving), saves the
render result to `os.path.join(export_path, modelname + '.png')`, and
finally clears both hide flags on every object.  `objects` is passed as the
list of the chosen objects' names. -/
def createPreview (s : RenderScene) (objects : List String)
    (export_path modelname : String) (render_resolution : Nat)
    (opengl : Bool) : RenderScene :=
  let s1 : RenderScene :=
    { s with file_format := "PNG", resolution_x := render_resolution,
             resolution_y := render_resolution, resolution_percentage := 100 }
  let s2 : RenderScene :=
    { s1 with objects := s1.objects.map (fun ob =>
        if ob.name ∈ objects then ob
        else { ob with hide_render := true, hide := true }) }
  let s3 : RenderScene :=
    if opengl then s2
    else
      let cam : RObj := { name := "Camera", hide := false, hide_render := false }
      let light : RObj := { name := "Sun", hide := false, hide_render := false }
      { s2 with objects := (((s2.objects ++ [cam]) ++ [light]).dropLast).dropLast }
  let s4 : RenderScene :=
    { s3 with savedImages := s3.savedImages ++
        [{ path := osPathJoin export_path (modelname ++ ".png"),
           file_format := s3.file_format,
           resolution_x := s3.resolution_x,
           resolution_y := s3.resolution_y }] }
  { s4 with objects := s4.objects.map (fun ob =>
      { ob with hide_render := false, hide := false }) }

/-! ## Statelessness (`compileEnumPropertyList`, host-state wrappers) -/

/-- `compileEnumPropertyList(iterable)`: the generator `((a,)*3 for a in
iterable)` modelled by the sequence of triples it yields. -/
def compileEnumPropertyList {α : Type} (iterable : List α) : List (α × α × α) :=
  iterable.map (fun a => (a, a, a))

/-- The host-application state visible to the module: scene layers, text
buffers and objects.  The module itself declares no mutable module-level
variable, so this is the only state its functions could read or write. -/
structure HostState where
  sceneLayers : List Bool
  texts : List BText
  objects : List RObj
deriving Repr, DecidableEq

/-- `defLayers` as it runs inside the host: it takes the host state but —
matching the source, which touches no `bpy` state in this function — returns
it unchanged alongside the pure result. -/
def defLayersHost (host : HostState) (layerlist : LayerArg) :
    HostState × Except String (List Bool) :=
  (host, defLayers layerlist)

/-- `compileEnumPropertyList` as it runs inside the host: the host state is
returned unchanged alongside the pure result. -/
def compileEnumPropertyListHost {α : Type} (host : HostState)
    (iterable : List α) : HostState × List (α × α × α) :=
  (host, compileEnumPropertyList iterable)

/-! ## Helper lemmas -/

theorem pySetIdx_ok_of_lt {l : List Bool} {i : Int} (h0 : 0 ≤ i)
    (hi : i < (l.length : Int)) (v : Bool) :
    pySetIdx l i v = .ok (l.set i.toNat v) := by
  unfold pySetIdx
  rw [if_pos ⟨h0, hi⟩]

theorem pySetIdx_err_of_ge {l : List Bool} {i : Int}
    (h : (l.length : Int) ≤ i) (v : Bool) :
    pySetIdx l i v = .error "IndexError" := by
  have h1 : ¬(0 ≤ i ∧ i < (l.length : Int)) := by omega
  have h2 : ¬(-(l.length : Int) ≤ i ∧ i < 0) := by omega
  unfold pySetIdx
  rw [if_neg h1, if_neg h2]

theorem pySetIdx_ok_length {l l' : List Bool} {i : Int} {v : Bool}
    (h : pySetIdx l i v = .ok l') : l'.length = l.length := by
  unfold pySetIdx at h
  split at h
  · injection h with h
    subst h
    simp
  · split at h
    · injection h with h
      subst h
      simp
    · simp at h

theorem pySetIdx_err_msg {l : List Bool} {i : Int} {v : Bool} {msg : String}
    (h : pySetIdx l i v = .error msg) : msg = "IndexError" := by
  unfold pySetIdx at h
  split at h
  · simp at h
  · split at h
    · simp at h
    · injection h with h
      exact h.symm

theorem defLayersLoop_cons_ok {e : Int} {rest : List Int}
    {acc acc' : List Bool} (h : pySetIdx acc e true = .ok acc') :
    defLayersLoop (e :: rest) acc = defLayersLoop rest acc' := by
  conv_lhs => unfold defLayersLoop
  rw [h]

theorem defLayersLoop_cons_err {e : Int} {rest : List Int} {acc : List Bool}
    {msg : String} (h : pySetIdx acc e true = .error msg) :
    defLayersLoop (e :: rest) acc = .error msg := by
  conv_lhs => unfold defLayersLoop
  rw [h]

theorem defLayersLoop_ok (ls : List Int) :
    ∀ acc : List Bool, acc.length = 20 → (∀ e ∈ ls, 0 ≤ e ∧ e < 20) →
      ∃ out, defLayersLoop ls acc = .ok out ∧ out.length = 20 ∧
        ∀ i : Nat, i < 20 →
          out.getD i false = (acc.getD i false || decide ((i : Int) ∈ ls)) := by
  induction ls with
  | nil =>
    intro acc hacc _
    refine ⟨acc, rfl, hacc, ?_⟩
    intro i _
    simp
  | cons e rest ih =>
    intro acc hacc h
    have he := h e (List.mem_cons_self e rest)
    have hset : pySetIdx acc e true = .ok (acc.set e.toNat true) :=
      pySetIdx_ok_of_lt he.1 (by omega) true
    obtain ⟨out, hout, hlen, hchar⟩ :=
      ih (acc.set e.toNat true) (by simp [hacc])
        (fun x hx => h x (List.mem_cons_of_mem _ hx))
    refine ⟨out, ?_, hlen, ?_⟩
    · rw [defLayersLoop_cons_ok hset]
      exact hout
    · intro i hi
      rw [hchar i hi]
      by_cases hie : (i : Int) = e
      · have hei : e.toNat = i := by omega
        have hlt : i < acc.length := by omega
        rw [hei]
        simp [List.getD_eq_getElem?_getD, List.getElem?_set_self hlt,
          List.mem_cons, hie]
      · have hne : e.toNat ≠ i := by omega
        simp [List.getD_eq_getElem?_getD, List.getElem?_set_ne hne,
          List.mem_cons, hie]

theorem defLayersLoop_err (ls : List Int) :
    ∀ acc : List Bool, acc.length = 20 → (∃ e ∈ ls, 20 ≤ e) →
      defLayersLoop ls acc = .error "IndexError" := by
  induction ls with
  | nil =>
    intro acc _ h
    simp at h
  | cons e rest ih =>
    intro acc hacc h
    cases hstep : pySetIdx acc e true with
    | ok acc' =>
      rw [defLayersLoop_cons_ok hstep]
      obtain ⟨x, hx, hx20⟩ := h
      rcases List.mem_cons.1 hx with rfl | hxr
      · rw [pySetIdx_err_of_ge (by omega) true] at hstep
        simp at hstep
      · exact ih acc' ((pySetIdx_ok_length hstep).trans hacc) ⟨x, hxr, hx20⟩
    | error msg =>
      rw [defLayersLoop_cons_err hstep, pySetIdx_err_msg hstep]

/-! ## Claims -/

/-- C1 (counterexample): on a scene with all 20 layers invisible,
`toggleLayer(0, False)` leaves bit 0 visible (`True`) — the explicitly
supplied boolean `False` is not written to the bit (which the claim says
should make the layer invisible); the bit is flipped instead. -/
theorem toggleLayer_false_cex :
    (toggleLayer (List.replicate 20 false) 0 (some false)).getD 0 false
      = true := by
  decide

/-- C1 (amended): for an index inside the layer array, `toggleLayer(index,
True)` sets the bit at `index` to `True`; `toggleLayer(index, None)` flips
it; `toggleLayer(index, False)` also flips it (Python truthiness treats an
explicit `False` like `None`); every other bit is left unchanged. -/
theorem toggleLayer_amended (layers : List Bool) (index : Nat)
    (h : index < layers.length) :
    (toggleLayer layers index (some true)).getD index false = true ∧
    (toggleLayer layers index none).getD index false
      = !(layers.getD index false) ∧
    (toggleLayer layers index (some false)).getD index false
      = !(layers.getD index false) ∧
    ∀ (value : Option Bool) (j : Nat), j ≠ index →
      (toggleLayer layers index value).getD j false = layers.getD j false := by
  refine ⟨?_, ?_, ?_, ?_⟩
  · simp [toggleLayer, pyTruthy, List.getD_eq_getElem?_getD,
      List.getElem?_set_self h]
  · simp [toggleLayer, pyTruthy, List.getD_eq_getElem?_getD,
      List.getElem?_set_self h]
  · simp [toggleLayer, pyTruthy, List.getD_eq_getElem?_getD,
      List.getElem?_set_self h]
  · intro value j hj
    have hne : index ≠ j := fun hh => hj hh.symm
    unfold toggleLayer
    split <;>
      simp [List.getD_eq_getElem?_getD, List.getElem?_set_ne hne]

/-- C1 (witness for the amended theorem): `toggleLayer(0, True)` turns
layer 0 on in `[False, True]`, and `toggleLayer(0, False)` leaves layer 1
untouched. -/
theorem toggleLayer_amended_witness :
    (toggleLayer [false, true] 0 (some true)).getD 0 false = true ∧
    (toggleLayer [false, true] 0 (some false)).getD 1 false = true :=
  ⟨(toggleLayer_amended [false, true] 0 (by decide)).1,
   (toggleLayer_amended [false, true] 0 (by decide)).2.2.2 (some false) 1
     (by decide)⟩

/-- C3: `getPhobosConfigPath()` returns the user preference `configfolder`
whenever it is a non-empty string, and otherwise the packaged default path
`getConfigPath()`. -/
theorem getPhobosConfigPath_spec (configfolder defaultPath : String) :
    (configfolder ≠ "" →
      getPhobosConfigPath configfolder defaultPath = configfolder) ∧
    (configfolder = "" →
      getPhobosConfigPath configfolder defaultPath = defaultPath) := by
  constructor
  · intro h
    simp [getPhobosConfigPath, h]
  · intro h
    simp [getPhobosConfigPath, h]

/-- C3 (witness): a non-empty preference wins, the empty preference falls
back to the default. -/
theorem getPhobosConfigPath_witness :
    getPhobosConfigPath "userconf" "packaged" = "userconf" ∧
    getPhobosConfigPath "" "packaged" = "packaged" :=
  ⟨(getPhobosConfigPath_spec "userconf" "packaged").1 (by decide),
   (getPhobosConfigPath_spec "" "packaged").2 rfl⟩

/-- C7: the module keeps no internal state between calls: the host-state
wrappers of the pure helpers `defLayers` and `compileEnumPropertyList`
return the host state unchanged, and their results are determined solely by
their arguments — runs from two different host states give equal results. -/
theorem module_stateless {α : Type} (h1 h2 : HostState) (l : LayerArg)
    (xs : List α) :
    (defLayersHost h1 l).1 = h1 ∧
    (defLayersHost h1 l).2 = (defLayersHost h2 l).2 ∧
    (compileEnumPropertyListHost h1 xs).1 = h1 ∧
    (compileEnumPropertyListHost h1 xs).2
      = (compileEnumPropertyListHost h2 xs).2 :=
  ⟨rfl, rfl, rfl, rfl⟩

/-- C8: for a list of entries all in `0..19`, `defLayers` returns exactly 20
booleans with position `i` `True` iff `i` occurs in the list; an entry of 20
or greater makes the call fail with an `IndexError`; a single integer
behaves as its one-element list. -/
theorem defLayers_spec (ls : List Int) :
    ((∀ e ∈ ls, 0 ≤ e ∧ e < 20) →
      ∃ layers, defLayers (.list ls) = .ok layers ∧ layers.length = 20 ∧
        ∀ i : Nat, i < 20 → (layers.getD i false = true ↔ (i : Int) ∈ ls)) ∧
    ((∃ e ∈ ls, 20 ≤ e) → defLayers (.list ls) = .error "IndexError") ∧
    (∀ i : Int, defLayers (.single i) = defLayers (.list [i])) := by
  refine ⟨?_, ?_, fun i => rfl⟩
  · intro h
    obtain ⟨out, hout, hlen, hchar⟩ :=
      defLayersLoop_ok ls (List.replicate 20 false) (by simp) h
    refine ⟨out, hout, hlen, ?_⟩
    intro i hi
    rw [hchar i hi]
    have hrep : (List.replicate 20 false).getD i false = false := by
      rw [List.getD_eq_getElem?_getD, List.getElem?_replicate]
      split <;> rfl
    rw [hrep]
    simp
  · intro h
    exact defLayersLoop_err ls (List.replicate 20 false) (by simp) h

/-- C8 (witness): `defLayers([0, 3])` succeeds, `defLayers([21])` raises
`IndexError`, and `defLayers(2)` equals `defLayers([2])`. -/
theorem defLayers_spec_witness :
    (defLayers (.list [0, 3])).isOk = true ∧
    defLayers (.list [21]) = .error "IndexError" ∧
    defLayers (.single 2) = defLayers (.list [2]) := by
  refine ⟨?_, (defLayers_spec [21]).2.1 ⟨21, by decide, by decide⟩,
    (defLayers_spec [2]).2.2 2⟩
  obtain ⟨layers, hok, -, -⟩ := (defLayers_spec [0, 3]).1 (by decide)
  rw [hok]
  rfl

theorem joinLines_map_mk (lss : List (List Char)) :
    joinLines (lss.map String.mk) = String.mk (List.intercalate ['\n'] lss) := by
  induction lss with
  | nil => rfl
  | cons l rest ih =>
    cases rest with
    | nil =>
      apply String.ext
      simp [joinLines, List.intercalate]
    | cons l2 rest2 =>
      apply String.ext
      have hdata := congrArg String.data ih
      simp only [List.map_cons, joinLines, String.data_append] at hdata ⊢
      rw [hdata]
      simp [List.intercalate]

/-- Writing a string into a fresh buffer and joining the resulting lines
with newlines gives the string back. -/
theorem joinLines_splitLines (c : String) : joinLines (splitLines c) = c := by
  unfold splitLines
  rw [joinLines_map_mk, List.intercalate_splitOn]

/-- After erasing the buffer of a given name from a collection with
pairwise-distinct names, no buffer of that name remains. -/
theorem eraseP_name_ne (texts : List BText) (nm : String)
    (h : (texts.map BText.name).Nodup) :
    ∀ t ∈ texts.eraseP (fun t => t.name == nm), ¬ t.name = nm := by
  induction texts with
  | nil => simp
  | cons x xs ih =>
    rw [List.map_cons, List.nodup_cons] at h
    by_cases hx : x.name = nm
    · rw [List.eraseP_cons_of_pos (by simp [hx])]
      intro t ht hteq
      exact h.1 (hx ▸ hteq ▸ List.mem_map_of_mem BText.name ht)
    · rw [List.eraseP_cons_of_neg (by simp [hx])]
      intro t ht
      rcases List.mem_cons.1 ht with rfl | htl
      · exact hx
      · exact ih h.2 t htl

/-- C2: `readTextFile` on a missing buffer logs one error message and
returns the empty string, leaving the buffer collection unchanged; on an
existing buffer it returns the buffer's lines joined with newline
characters (also leaving the collection unchanged). -/
theorem readTextFile_spec (texts : List BText) (textfilename : String) :
    (textsFind texts textfilename = none →
      readTextFile texts textfilename
        = (texts, "", [noTextFileMsg textfilename])) ∧
    (∀ t, textsFind texts textfilename = some t →
      readTextFile texts textfilename = (texts, joinLines t.lines, [])) := by
  constructor
  · intro h
    simp [readTextFile, h]
  · intro t h
    simp [readTextFile, h]

/-- C2 (witness): reading the missing buffer `model` from an empty
collection logs the error and yields `""`; reading an existing two-line
buffer yields its lines joined by a newline. -/
theorem readTextFile_spec_witness :
    readTextFile [] "model" = ([], "", [noTextFileMsg "model"]) ∧
    readTextFile [⟨"model", ["a", "b"]⟩] "model"
      = ([⟨"model", ["a", "b"]⟩], joinLines ["a", "b"], []) :=
  ⟨(readTextFile_spec [] "model").1 rfl,
   (readTextFile_spec [⟨"model", ["a", "b"]⟩] "model").2
     ⟨"model", ["a", "b"]⟩ rfl⟩

/-- C4: under Blender's unique-buffer-name invariant, after
`updateTextFile(name, content)` a `readTextFile(name)` returns `content` —
whether or not a buffer of that name existed before — and exactly one
buffer of that name exists. -/
theorem updateTextFile_spec (texts : List BText) (nm content : String)
    (h : (texts.map BText.name).Nodup) :
    (readTextFile (updateTextFile texts nm content) nm).2.1 = content ∧
    (updateTextFile texts nm content).countP (fun t => t.name == nm) = 1 := by
  have hne := eraseP_name_ne texts nm h
  have hfind : textsFind (updateTextFile texts nm content) nm
      = some ⟨nm, splitLines content⟩ := by
    unfold updateTextFile createNewTextfile textsFind
    rw [List.find?_append]
    have hnone : (texts.eraseP (fun t => t.name == nm)).find?
        (fun t => t.name == nm) = none := by
      rw [List.find?_eq_none]
      intro t ht
      simpa using hne t ht
    rw [hnone]
    simp
  constructor
  · unfold readTextFile
    rw [hfind]
    exact joinLines_splitLines content
  · unfold updateTextFile createNewTextfile
    rw [List.countP_append]
    have hzero : (texts.eraseP (fun t => t.name == nm)).countP
        (fun t => t.name == nm) = 0 := by
      rw [List.countP_eq_zero]
      intro t ht
      simpa using hne t ht
    rw [hzero]
    simp [List.countP_cons]

/-- C4 (witness): overwriting the existing buffer `a` with a two-line
string reads back verbatim, and exactly one buffer named `a` remains. -/
theorem updateTextFile_spec_witness :
    (readTextFile (updateTextFile [⟨"a", ["x"]⟩] "a" "hi\nthere") "a").2.1
      = "hi\nthere" ∧
    (updateTextFile [⟨"a", ["x"]⟩] "a" "hi\nthere").countP
      (fun t => t.name == "a") = 1 :=
  updateTextFile_spec [⟨"a", ["x"]⟩] "a" "hi\nthere" (by decide)

/-- Deleting the entry of one key from an association list with distinct
keys is the same as filtering that key out. -/
theorem eraseP_key_eq_filter {V : Type} (l : List (String × V)) (key : String)
    (h : (l.map Prod.fst).Nodup) :
    l.eraseP (fun kv => kv.1 == key) = l.filter (fun kv => !(kv.1 == key)) := by
  induction l with
  | nil => rfl
  | cons x xs ih =>
    rw [List.map_cons, List.nodup_cons] at h
    by_cases hx : x.1 = key
    · rw [List.eraseP_cons_of_pos (by simp [hx]),
        List.filter_cons_of_neg (by simp [hx])]
      symm
      apply List.filter_eq_self.2
      intro kv hkv
      have hk : kv.1 ≠ key := by
        intro hk
        exact h.1 (hx ▸ hk ▸ List.mem_map_of_mem Prod.fst hkv)
      simp [hk]
    · rw [List.eraseP_cons_of_neg (by simp [hx]),
        List.filter_cons_of_pos (by simp [hx]), ih h.2]

/-- The deletion loop of `cleanObjectProperties` filters out exactly the
keys of `ks` from an association list with distinct keys. -/
theorem foldl_del_eq_filter {V : Type} (ks : List String) :
    ∀ l : List (String × V), (l.map Prod.fst).Nodup →
      ks.foldl (fun acc key =>
          if acc.any (fun kv => kv.1 == key) then
            acc.eraseP (fun kv => kv.1 == key)
          else acc) l
        = l.filter (fun kv => !(ks.contains kv.1)) := by
  induction ks with
  | nil =>
    intro l _
    simp
  | cons k ks ih =>
    intro l h
    rw [List.foldl_cons]
    have hstep : (if l.any (fun kv => kv.1 == k) then
        l.eraseP (fun kv => kv.1 == k) else l)
        = l.filter (fun kv => !(kv.1 == k)) := by
      by_cases ha : l.any (fun kv => kv.1 == k) = true
      · rw [if_pos ha, eraseP_key_eq_filter l k h]
      · rw [if_neg ha]
        simp only [List.any_eq_true, not_exists, not_and] at ha
        symm
        apply List.filter_eq_self.2
        intro kv hkv
        have := ha kv hkv
        simp only [beq_iff_eq] at this ⊢
        simp [this]
    have hnodup : ((l.filter (fun kv => !(kv.1 == k))).map Prod.fst).Nodup :=
      List.Nodup.sublist (List.Sublist.map Prod.fst (List.filter_sublist l)) h
    rw [hstep, ih _ hnodup, List.filter_filter]
    apply List.filter_congr
    intro kv _
    by_cases hk : kv.1 = k <;> by_cases hm : ks.contains kv.1 = true <;>
      simp [hk, hm, List.contains_cons]

/-- C10: `cleanObjectProperties` removes exactly the present keys among the
predefined `getridof` list, keeps every other entry (with its value)
unchanged and in order, and returns the dictionary; a falsy `props` (`None`
or the empty dict) comes back unmodified. -/
theorem cleanObjectProperties_spec {V : Type} (props : List (String × V))
    (h : (props.map Prod.fst).Nodup) :
    cleanObjectProperties (some props)
      = some (props.filter (fun kv => !(getridof.contains kv.1))) ∧
    (∀ kv : String × V,
      kv ∈ props.filter (fun kv => !(getridof.contains kv.1)) ↔
        kv ∈ props ∧ ¬ kv.1 ∈ getridof) ∧
    cleanObjectProperties (none : Option (List (String × V))) = none := by
  refine ⟨?_, ?_, rfl⟩
  · cases props with
    | nil => rfl
    | cons x xs =>
      simp only [cleanObjectProperties]
      rw [if_neg (by simp), foldl_del_eq_filter getridof (x :: xs) h]
  · intro kv
    simp [List.mem_filter]

/-- C10 (witness): the key `phobostype` is stripped, the key `mass` is
kept, `None` comes back as `None`. -/
theorem cleanObjectProperties_spec_witness :
    cleanObjectProperties (some [("phobostype", (1 : Nat)), ("mass", 2)])
      = some [("mass", 2)] ∧
    cleanObjectProperties (none : Option (List (String × Nat))) = none := by
  have h := cleanObjectProperties_spec [("phobostype", (1 : Nat)), ("mass", 2)]
    (by decide)
  refine ⟨?_, h.2.2⟩
  rw [h.1]
  rfl

/-- C6: `createPreview` writes exactly one new image, in PNG format at the
requested square resolution, to the file `modelname + ".png"` inside the
caller-specified `export_path` folder. -/
theorem createPreview_saves_png (s : RenderScene) (objects : List String)
    (export_path modelname : String) (render_resolution : Nat)
    (opengl : Bool) :
    (createPreview s objects export_path modelname render_resolution
        opengl).savedImages
      = s.savedImages ++
        [{ path := osPathJoin export_path (modelname ++ ".png"),
           file_format := "PNG", resolution_x := render_resolution,
           resolution_y := render_resolution }] := by
  cases opengl <;> rfl

/-- C9: after `createPreview` returns, every object in the scene data has
both `hide` and `hide_render` set to `False`, whatever the flags were
before the call — prior visibility is not restored. -/
theorem createPreview_clears_hide (s : RenderScene) (objects : List String)
    (export_path modelname : String) (render_resolution : Nat)
    (opengl : Bool) (ob : RObj)
    (hmem : ob ∈ (createPreview s objects export_path modelname
        render_resolution opengl).objects) :
    ob.hide = false ∧ ob.hide_render = false := by
  obtain ⟨a, -, rfl⟩ := List.mem_map.1 hmem
  exact ⟨rfl, rfl⟩

/-- C9 (witness): a scene whose only object starts out hidden ends with
that object visible after `createPreview`. -/
theorem createPreview_clears_hide_witness :
    ({ name := "link", hide := false, hide_render := false } : RObj).hide
      = false ∧
    ({ name := "link", hide := false, hide_render := false } : RObj).hide_render
      = false :=
  createPreview_clears_hide
    { file_format := "JPEG", resolution_x := 0, resolution_y := 0,
      resolution_percentage := 50,
      objects := [{ name := "link", hide := true, hide_render := true }],
      savedImages := [] }
    [] "exports" "model" 256 true
    { name := "link", hide := false, hide_render := false }
    (by decide)

/-- C5: for an in-range integer layer, `createPrimitive` succeeds and
returns a newly appended mesh object of the requested primitive type and
size, placed exactly on layer `player` (which is also activated in the
scene, all other scene layers untouched), carrying the requested name,
phobostype and material. -/
theorem createPrimitive_spec {Size Vec3 : Type} (s : PrimScene Size Vec3)
    (pname : String) (ptype : PrimType) (psize : Size) (player : Nat)
    (pmaterial : Option String) (plocation protation : Vec3)
    (phobostype : Option String) (hp : player < 20)
    (hs : s.layers.length = 20) :
    ∃ s' obj, createPrimitive s pname ptype psize player pmaterial plocation
        protation phobostype = .ok (s', obj) ∧
      obj.ptype = ptype ∧
      obj.size = psize ∧
      obj.layers.getD player false = true ∧
      (∀ j : Nat, j < 20 → j ≠ player → obj.layers.getD j false = false) ∧
      obj.name = pname ∧
      obj.phobostype = phobostype ∧
      obj.material = pmaterial ∧
      s'.layers.getD player false = true ∧
      (∀ j : Nat, j ≠ player → s'.layers.getD j false = s.layers.getD j false) ∧
      s'.objects = s.objects ++ [obj] := by
  have hstep : pySetIdx (List.replicate 20 false) (player : Int) true
      = .ok ((List.replicate 20 false).set player true) := by
    have h := @pySetIdx_ok_of_lt (List.replicate 20 false) (player : Int)
      (by omega) (by simp; omega) true
    simpa using h
  have h1 : defLayers (.list [(player : Int)])
      = .ok ((List.replicate 20 false).set player true) := by
    show defLayersLoop [(player : Int)] (List.replicate 20 false) = _
    rw [defLayersLoop_cons_ok hstep]
    rfl
  have h2 : pySetIdx s.layers (player : Int) true
      = .ok (s.layers.set player true) := by
    have h := @pySetIdx_ok_of_lt s.layers (player : Int) (by omega)
      (by omega) true
    simpa using h
  have hA : ((List.replicate 20 false).set player true).getD player false
      = true := by
    rw [List.getD_eq_getElem?_getD, List.getElem?_set_self (by simp [hp])]
    rfl
  have hB : ∀ j : Nat, j < 20 → j ≠ player →
      ((List.replicate 20 false).set player true).getD j false = false := by
    intro j hj hne
    rw [List.getD_eq_getElem?_getD, List.getElem?_set_ne (Ne.symm hne),
      List.getElem?_replicate]
    split <;> rfl
  have hC : (s.layers.set player true).getD player false = true := by
    rw [List.getD_eq_getElem?_getD, List.getElem?_set_self (by omega)]
    rfl
  have hD : ∀ j : Nat, j ≠ player →
      (s.layers.set player true).getD j false = s.layers.getD j false := by
    intro j hne
    rw [List.getD_eq_getElem?_getD, List.getElem?_set_ne (Ne.symm hne),
      List.getD_eq_getElem?_getD]
  unfold createPrimitive
  rw [h1, h2]
  rcases phobostype with _ | pt <;> rcases pmaterial with _ | m <;>
    cases ptype <;>
      exact ⟨_, _, rfl, rfl, rfl, hA, hB, rfl, rfl, rfl, hC, hD, rfl⟩

/-- C5 (witness): creating a box named `visual_box` of size 2 on layer 3
with a material succeeds on a fresh 20-layer scene. -/
theorem createPrimitive_spec_witness :
    (createPrimitive (⟨List.replicate 20 false, []⟩ : PrimScene Nat Nat)
        "visual_box" .box 2 3 (some "mat") 0 0 (some "visual")).isOk
      = true := by
  obtain ⟨s', obj, hok, -, -, -, -, -, -, -, -, -, -⟩ :=
    createPrimitive_spec (⟨List.replicate 20 false, []⟩ : PrimScene Nat Nat)
      "visual_box" .box 2 3 (some "mat") 0 0 (some "visual")
      (by decide) (by simp)
  rw [hok]
  rfl

end PhobosBlender
